import Mathlib

/-!
Shallow embedding of the PDF logo-replacement backend (`src/main.py`,
endpoint `POST /replace-logos`).

Real-valued quantities (coordinates, widths, heights, aspect ratios) are
modelled as rationals; Python's raising division is modelled as an
`Except`-valued `pydiv`.  Exceptions raised by the handler are modelled as
`Except String` errors; the outer `try/except` of the handler maps them to
HTTP responses.  The external PDF library's compositing primitives
(`page.get_images` / `get_image_bbox` / `replace_image` / `insert_image`)
may themselves raise; their raising behaviour is an input (`Oracles`),
while the deterministic choice logic of the handler is embedded directly.
-/

set_option autoImplicit false

namespace PdfLogoReplacer

/-- A rectangle `(x0, y0, x1, y1)` as used by the PDF library (`fitz.Rect`). -/
structure Rect where
  x0 : ℚ
  y0 : ℚ
  x1 : ℚ
  y1 : ℚ
deriving DecidableEq, Repr

/-- Embeds `fitz.Rect.is_empty`: a rectangle is empty when `x0 >= x1` or `y0 >= y1`. -/
def Rect.isEmptyR (r : Rect) : Bool :=
  r.x1 ≤ r.x0 || r.y1 ≤ r.y0

/-- Embeds `fitz.Rect.intersect`: pointwise max of lower corners, min of upper corners. -/
def Rect.inter (r s : Rect) : Rect :=
  ⟨max r.x0 s.x0, max r.y0 s.y0, min r.x1 s.x1, min r.y1 s.y1⟩

/-- Embeds `fitz.Rect.intersects`: false when either rectangle is empty, otherwise
whether the intersection rectangle is non-empty. -/
def Rect.intersects (r s : Rect) : Bool :=
  if r.isEmptyR || s.isEmptyR then false
  else !(r.inter s).isEmptyR

/-- One caller-supplied logo detection (`src/main.py` lines 83-88):
`page` is the 1-based page number `det['page']`; `x`, `y` are required;
`width`/`height` are optional and default to the replacement image's native
dimensions (`det.get('width', replace_width)`). -/
structure Detection where
  page : Int
  x : ℚ
  y : ℚ
  width? : Option ℚ
  height? : Option ℚ
deriving DecidableEq, Repr

/-- One page of the opened document: its height (`page.rect.height`) and the
bounding boxes of its embedded images, in the order `page.get_images(full=True)`
enumerates them. -/
structure Page where
  height : ℚ
  imageBoxes : List Rect
deriving DecidableEq, Repr

/-- Python division `a / b`: raises `ZeroDivisionError` when `b == 0`. -/
def pydiv (a b : ℚ) : Except String ℚ :=
  if b = 0 then .error "division by zero" else .ok (a / b)

/-- Python `abs` on a rational. -/
def pyabs (a : ℚ) : ℚ :=
  if a < 0 then -a else a

/-- The aspect-ratio policy of `src/main.py` lines 98-106:
`original_aspect = replace_width / replace_height`,
`target_aspect = width / height if height > 0 else original_aspect`, and
when `abs(original_aspect - target_aspect) > 0.1` the height is recomputed
as `width / original_aspect` (the width is never changed). -/
def computeSize (rw rh width height : ℚ) : Except String (ℚ × ℚ) :=
  match pydiv rw rh with
  | .error e => .error e
  | .ok originalAspect =>
    match (if height > 0 then pydiv width height else .ok originalAspect) with
    | .error e => .error e
    | .ok targetAspect =>
      if pyabs (originalAspect - targetAspect) > 1 / 10 then
        match pydiv width originalAspect with
        | .error e => .error e
        | .ok h => .ok (width, h)
      else
        .ok (width, height)

/-- The rectangle construction of `src/main.py` lines 110-115:
`x0 = x`, `y0 = y`, `x1 = x0 + width`, `y1 = y0 + height`
(the comment in the source: `(x, y)` is already in bottom-left PDF
coordinates, so no page-height term appears). -/
def placementRect (x y w h : ℚ) : Rect :=
  ⟨x, y, x + w, y + h⟩

/-- Lines 87-88 and 95-115 for one detection, given the page object and the
replacement image's native dimensions `rw × rh`: resolve the effective
width/height, apply the aspect policy, and build the placement rectangle.
`page_height` is read from the page (line 96) but never used afterwards. -/
def detectionRect (page : Page) (rw rh : ℚ) (det : Detection) : Except String Rect :=
  let _pageHeight := page.height
  let width := det.width?.getD rw
  let height := det.height?.getD rh
  match computeSize rw rh width height with
  | .error e => .error e
  | .ok wh => .ok (placementRect det.x det.y wh.1 wh.2)

/-- Models PyMuPDF `doc[page_num]` (`Document.__getitem__` / `load_page`):
an index `>= page_count` raises `IndexError(f"page {i} not in document")`;
a negative index is wrapped by repeatedly adding `page_count`, i.e. taken
modulo the page count for a non-empty document (`doc[-1]` is the last page).
The degenerate empty-document case, where the library would not terminate,
is modelled as an error. -/
def getPage (doc : List Page) (pno : Int) : Except String Page :=
  if (doc.length : Int) ≤ pno then
    .error ("page " ++ toString pno ++ " not in document")
  else
    match doc.get? (pno % (doc.length : Int)).toNat with
    | some p => .ok p
    | none => .error "page not in document"

/-- The compositing action the handler finally performs for one detection:
either `page.replace_image(xref=...)` on the image at a given enumeration
index (no rectangle is passed), or `page.insert_image(rect, ...)`. -/
inductive Action where
  | replaceImage (imgIdx : Nat)
  | insertImage (r : Rect)
deriving DecidableEq, Repr

/-- The loop of `src/main.py` lines 127-153, with `i` the enumeration index
of the head of the remaining list: the first image whose bounding box
intersects the target rectangle is replaced and the loop breaks; when no
image intersects, the replacement logo is inserted into the rectangle. -/
def findReplaceFrom (rect : Rect) : List Rect → Nat → Action
  | [], _ => .insertImage rect
  | b :: rest, i => if b.intersects rect then .replaceImage i else findReplaceFrom rect rest (i + 1)

/-- Lines 121-154 on the normal (non-raising) path: choose the action for
the given page-image bounding boxes and target rectangle. -/
def findReplace (images : List Rect) (rect : Rect) : Action :=
  findReplaceFrom rect images 0

/-- Raising behaviour of the external compositing primitives, per detection
index: `innerRaises idx = some e` means the find-and-replace block
(`src/main.py` lines 121-154) raises an exception with message `e` while
processing detection `idx`; `fallbackRaises idx` likewise for the fallback
`page.insert_image` call (lines 160-164). `none` means the calls succeed. -/
structure Oracles where
  innerRaises : Nat → Option String
  fallbackRaises : Nat → Option String

/-- The oracle under which no compositing primitive ever raises. -/
def orcNone : Oracles :=
  ⟨fun _ => none, fun _ => none⟩

/-- The oracle under which the find-and-replace block always raises and the
fallback insertion always succeeds. -/
def orcInnerBoom : Oracles :=
  ⟨fun _ => some "boom", fun _ => none⟩

/-- Result of the inner `try` block (lines 121-154) for one detection:
either it raises, or it performs the find-and-replace choice. -/
def innerResult (orc : Oracles) (idx : Nat) (page : Page) (rect : Rect) : Except String Action :=
  match orc.innerRaises idx with
  | some e => .error e
  | none => .ok (findReplace page.imageBoxes rect)

/-- Result of the fallback `page.insert_image(rect, ...)` call (lines 160-164). -/
def fallbackResult (orc : Oracles) (idx : Nat) (rect : Rect) : Except String Action :=
  match orc.fallbackRaises idx with
  | some e => .error e
  | none => .ok (.insertImage rect)

/-- The `try/except/try/except raise` structure of lines 121-168: when the
inner block raises, the fallback insertion is attempted; when the fallback
also raises, that exception propagates. -/
def compositeStep (inner fallback : Except String Action) : Except String Action :=
  match inner with
  | .ok a => .ok a
  | .error _ =>
    match fallback with
    | .ok a => .ok a
    | .error e => .error e

/-- Processing of one detection (`src/main.py` lines 83-168): 0-based page
lookup `doc[det['page'] - 1]`, placement-rectangle computation, then the
compositing step with its fallback. -/
def processOne (doc : List Page) (rw rh : ℚ) (orc : Oracles) (idx : Nat) (det : Detection) :
    Except String Action :=
  match getPage doc (det.page - 1) with
  | .error e => .error e
  | .ok page =>
    match detectionRect page rw rh det with
    | .error e => .error e
    | .ok rect => compositeStep (innerResult orc idx page rect) (fallbackResult orc idx rect)

/-- The `for idx, det in enumerate(detections_list)` loop (line 83): the
detections are processed in order and the first exception aborts the loop. -/
def processAll (doc : List Page) (rw rh : ℚ) (orc : Oracles) :
    Nat → List Detection → Except String (List Action)
  | _, [] => .ok []
  | idx, det :: rest =>
    match processOne doc rw rh orc idx det with
    | .error e => .error e
    | .ok a =>
      match processAll doc rw rh orc (idx + 1) rest with
      | .error e => .error e
      | .ok as => .ok (a :: as)

/-- The HTTP outcome of the handler: a `200` success carrying the modified
PDF (represented by the list of compositing actions applied to it), or an
`HTTPException` with status `400` (line 191) or `500` (line 194). -/
inductive HResp where
  | success (actions : List Action)
  | clientError (detail : String)
  | serverError (detail : String)
deriving DecidableEq, Repr

/-- HTTP status code of a handler outcome (`src/main.py` lines 182, 191, 194). -/
def HResp.status : HResp → Nat
  | .success _ => 200
  | .clientError _ => 400
  | .serverError _ => 500

/-- Whether the outcome returns modified PDF bytes to the caller. -/
def HResp.isSuccess : HResp → Bool
  | .success _ => true
  | _ => false

/-- One complete run of the handler: the HTTP outcome, whether
`fitz.open` was reached and produced an in-memory document handle, and
whether `doc.close()` (line 176) executed before the handler returned. -/
structure HandlerRun where
  resp : HResp
  docOpened : Bool
  docClosed : Bool
deriving DecidableEq, Repr

/-- The whole `replace_logos` handler (`src/main.py` lines 60-194), with the
outcomes of the external steps as inputs, in source order:
`parse` is the result of `json.loads(detections)` (line 64, a
`json.JSONDecodeError` carries the parser message `e`); `decodeLogo` the
result of base64-decoding and PIL-opening the replacement logo
(lines 68-74, yielding its native `width × height`); `openDoc` the result
of `fitz.open` (line 79).  A `JSONDecodeError` is answered with status 400
and detail `"Invalid detections JSON: " + str(e)` (line 191); every other
exception with status 500 and the exception's message (line 194).
`doc.close()` runs only on the success path (line 176); an exception
escaping the detection loop propagates with the document still open. -/
def replaceLogos (parse : Except String (List Detection))
    (decodeLogo : Except String (ℚ × ℚ)) (openDoc : Except String (List Page))
    (orc : Oracles) : HandlerRun :=
  match parse with
  | .error e => ⟨.clientError ("Invalid detections JSON: " ++ e), false, false⟩
  | .ok dets =>
    match decodeLogo with
    | .error e => ⟨.serverError e, false, false⟩
    | .ok (rw, rh) =>
      match openDoc with
      | .error e => ⟨.serverError e, false, false⟩
      | .ok doc =>
        match processAll doc rw rh orc 0 dets with
        | .error e => ⟨.serverError e, true, false⟩
        | .ok acts => ⟨.success acts, true, true⟩

/-- The function `pyabs` is the absolute value on `ℚ`. -/
theorem pyabs_eq_abs (a : ℚ) : pyabs a = |a| := by
  unfold pyabs
  rcases lt_or_ge a 0 with h | h
  · rw [if_pos h, abs_of_neg h]
  · rw [if_neg (not_lt.mpr h), abs_of_nonneg h]

/-- When the native dimensions and the effective requested dimensions are all
positive, the aspect policy keeps the width and yields a positive height. -/
theorem computeSize_pos (rw rh W H w h : ℚ) (hrw : 0 < rw) (hrh : 0 < rh) (hW : 0 < W)
    (hH : 0 < H) (hok : computeSize rw rh W H = .ok (w, h)) : w = W ∧ 0 < h := by
  simp only [computeSize, pydiv, if_neg hrh.ne', if_pos hH, if_neg hH.ne'] at hok
  by_cases hc : pyabs (rw / rh - W / H) > 1 / 10
  · rw [if_pos hc] at hok
    rw [if_neg (div_pos hrw hrh).ne'] at hok
    simp only [Except.ok.injEq, Prod.mk.injEq] at hok
    obtain ⟨h1, h2⟩ := hok
    exact ⟨h1.symm, h2 ▸ div_pos hW (div_pos hrw hrh)⟩
  · rw [if_neg hc] at hok
    simp only [Except.ok.injEq, Prod.mk.injEq] at hok
    obtain ⟨h1, h2⟩ := hok
    exact ⟨h1.symm, h2 ▸ hH⟩

/-- C1: for every detection processed under the bottom-left origin convention
(the convention the handler uses, `src/main.py` lines 110-115), the placement
rectangle handed to the compositing primitive satisfies `x0 = x`, `y0 = y`,
`x1 = x + width` and `y1 = y + h'` for the effective (possibly
aspect-adjusted) size `(width, h')`, with no dependency on the page height:
the same rectangle results for any two pages `p` and `q`. -/
theorem claim_C1 (p q : Page) (rw rh : ℚ) (det : Detection) (w h : ℚ)
    (hcs : computeSize rw rh (det.width?.getD rw) (det.height?.getD rh) = .ok (w, h)) :
    detectionRect p rw rh det = .ok ⟨det.x, det.y, det.x + w, det.y + h⟩ ∧
    detectionRect p rw rh det = detectionRect q rw rh det := by
  refine ⟨?_, ?_⟩ <;> simp [detectionRect, hcs, placementRect]

/-- Witness for C1 at a concrete detection and two pages of different heights. -/
theorem claim_C1_witness :
    detectionRect ⟨10, []⟩ 1 1 ⟨1, 2, 3, some 5, some 5⟩ = .ok ⟨2, 3, 2 + 5, 3 + 5⟩ ∧
    detectionRect ⟨10, []⟩ 1 1 ⟨1, 2, 3, some 5, some 5⟩ =
      detectionRect ⟨20, []⟩ 1 1 ⟨1, 2, 3, some 5, some 5⟩ :=
  claim_C1 ⟨10, []⟩ ⟨20, []⟩ 1 1 ⟨1, 2, 3, some 5, some 5⟩ 5 5
    (by norm_num [computeSize, pydiv, pyabs, Option.getD])

/-- C2: for a detection with positive effective height, when the absolute
difference between the native aspect ratio `rw / rh` and the requested aspect
ratio `width / height` exceeds `0.1`, the height is recomputed as
`width / (rw / rh)` and the width is unchanged (`src/main.py` lines 98-106).
Native dimensions are positive, as guaranteed by the decoded image. -/
theorem claim_C2 (rw rh width height : ℚ) (hrw : 0 < rw) (hrh : 0 < rh) (hh : 0 < height)
    (hd : pyabs (rw / rh - width / height) > 1 / 10) :
    computeSize rw rh width height = .ok (width, width / (rw / rh)) := by
  simp only [computeSize, pydiv, if_neg hrh.ne', if_pos hh, if_neg hh.ne', if_pos hd,
    if_neg (div_pos hrw hrh).ne']

/-- Witness for C2, the spec's own numbers: native aspect `200/100 = 2.0`,
requested `width = 100`, `height = 20`, adjusted height `100 / 2 = 50`. -/
theorem claim_C2_witness : computeSize 200 100 100 20 = .ok (100, 50) := by
  have h := claim_C2 200 100 100 20 (by norm_num) (by norm_num) (by norm_num)
    (by norm_num [pyabs])
  rw [h]
  norm_num

/-- C3: for every detection whose effective height is `≤ 0`, the aspect
computation raises no division-by-zero error (`target_aspect` falls back to
`original_aspect`, line 100) and the width and height pass through to the
placement rectangle unadjusted. -/
theorem claim_C3 (p : Page) (rw rh : ℚ) (det : Detection) (hrh : 0 < rh)
    (hh : det.height?.getD rh ≤ 0) :
    detectionRect p rw rh det =
      .ok (placementRect det.x det.y (det.width?.getD rw) (det.height?.getD rh)) := by
  simp only [detectionRect, computeSize, pydiv, if_neg hrh.ne', if_neg (not_lt.mpr hh)]
  norm_num [pyabs]

/-- Witness for C3: requested height `0` yields no error and the degenerate
pass-through rectangle. -/
theorem claim_C3_witness :
    detectionRect ⟨100, []⟩ 1 1 ⟨1, 2, 3, some 7, some 0⟩ = .ok (placementRect 2 3 7 0) :=
  claim_C3 ⟨100, []⟩ 1 1 ⟨1, 2, 3, some 7, some 0⟩ (by norm_num) (by norm_num [Option.getD])

/-- C4 as stated is false: a detection with caller-supplied `height = 0` (and
positive width) passes through the aspect policy unadjusted and produces a
placement rectangle of height `0`, so `y1 - y0 > 0` fails. -/
theorem claim_C4_counterexample :
    detectionRect ⟨100, []⟩ 1 1 ⟨1, 0, 0, some 10, some 0⟩ = .ok ⟨0, 0, 10, 0⟩ ∧
    ¬(0 < (Rect.mk 0 0 10 0).x1 - (Rect.mk 0 0 10 0).x0 ∧
      0 < (Rect.mk 0 0 10 0).y1 - (Rect.mk 0 0 10 0).y0) := by
  constructor
  · norm_num [detectionRect, computeSize, pydiv, pyabs, placementRect, Option.getD]
  · norm_num

/-- C4 amended: for every detection whose effective width and effective height
are both positive (the native image dimensions being positive), the placement
rectangle produced after the aspect policy has strictly positive width and
height. -/
theorem claim_C4 (p : Page) (rw rh : ℚ) (det : Detection) (r : Rect)
    (hrw : 0 < rw) (hrh : 0 < rh)
    (hw : 0 < det.width?.getD rw) (hh : 0 < det.height?.getD rh)
    (hres : detectionRect p rw rh det = .ok r) :
    0 < r.x1 - r.x0 ∧ 0 < r.y1 - r.y0 := by
  simp only [detectionRect] at hres
  cases hcs : computeSize rw rh (det.width?.getD rw) (det.height?.getD rh) with
  | error e => simp [hcs] at hres
  | ok wh =>
    simp only [hcs, Except.ok.injEq] at hres
    obtain ⟨hw1, hh1⟩ := computeSize_pos rw rh _ _ wh.1 wh.2 hrw hrh hw hh (by rw [hcs])
    subst hres
    constructor
    · simpa [placementRect] using hw1 ▸ hw
    · simpa [placementRect] using hh1

/-- Witness for C4 (amended) on a detection whose height is aspect-adjusted. -/
theorem claim_C4_witness :
    0 < (Rect.mk 0 0 10 5).x1 - (Rect.mk 0 0 10 5).x0 ∧
    0 < (Rect.mk 0 0 10 5).y1 - (Rect.mk 0 0 10 5).y0 :=
  claim_C4 ⟨100, []⟩ 2 1 ⟨1, 0, 0, some 10, some 10⟩ ⟨0, 0, 10, 5⟩ (by norm_num) (by norm_num)
    (by norm_num [Option.getD]) (by norm_num [Option.getD])
    (by norm_num [detectionRect, computeSize, pydiv, pyabs, placementRect, Option.getD])

/-- A detection whose 0-based page index is at or beyond the page count makes
`processOne` fail with the library's `IndexError` message, for any detection
position in the list and any oracle. -/
theorem processOne_pageError (doc : List Page) (rw rh : ℚ) (orc : Oracles) (idx : Nat)
    (det : Detection) (hpage : (doc.length : Int) < det.page) :
    processOne doc rw rh orc idx det =
      .error ("page " ++ toString (det.page - 1) ++ " not in document") := by
  have h : (doc.length : Int) ≤ det.page - 1 := by omega
  simp only [processOne, getPage, if_pos h]

/-- If some member of the detection list fails at every loop position, the
whole loop fails. -/
theorem processAll_error_of_mem (doc : List Page) (rw rh : ℚ) (orc : Oracles)
    (det : Detection) (herr : ∀ idx, ∃ e, processOne doc rw rh orc idx det = .error e) :
    ∀ (dets : List Detection), det ∈ dets →
      ∀ idx0, ∃ e, processAll doc rw rh orc idx0 dets = .error e := by
  intro dets
  induction dets with
  | nil =>
    intro hmem
    exact absurd hmem (List.not_mem_nil det)
  | cons d ds ih =>
    intro hmem idx0
    rcases List.mem_cons.mp hmem with heq | hmem'
    · subst heq
      obtain ⟨e, he⟩ := herr idx0
      exact ⟨e, by simp only [processAll, he]⟩
    · cases hp : processOne doc rw rh orc idx0 d with
      | error e => exact ⟨e, by simp only [processAll, hp]⟩
      | ok a =>
        obtain ⟨e, he⟩ := ih hmem' (idx0 + 1)
        exact ⟨e, by simp only [processAll, hp, he]⟩

/-- C5 as stated is false: a detection with `page = 0` lies outside
`[1, pageCount]`, yet the library wraps the resulting index `-1` around to the
last page, so the request succeeds and returns a modified PDF instead of
failing with a 500 error. -/
theorem claim_C5_counterexample :
    replaceLogos (.ok [⟨0, 5, 5, some 10, some 10⟩]) (.ok (1, 1)) (.ok [⟨100, []⟩]) orcNone =
      ⟨.success [.insertImage ⟨5, 5, 15, 15⟩], true, true⟩ ∧
    (Detection.mk 0 5 5 (some 10) (some 10)).page < 1 := by
  constructor
  · norm_num [replaceLogos, processAll, processOne, getPage, detectionRect, computeSize, pydiv,
      pyabs, placementRect, compositeStep, innerResult, fallbackResult, findReplace,
      findReplaceFrom, orcNone]
  · norm_num

/-- C5 amended: for every request containing a detection whose page value
exceeds the page count, the request fails with a 500 response whose body is an
error detail, no modified PDF is returned and the document is not closed;
such a detection always fails with the page-index message
`"page <page-1> not in document"`.  (Detections with `page ≤ 0` do not
trigger this error: the library wraps negative indices around the end of the
document.) -/
theorem claim_C5 (dets : List Detection) (doc : List Page) (rw rh : ℚ) (orc : Oracles)
    (det : Detection) (hmem : det ∈ dets) (hpage : (doc.length : Int) < det.page) :
    (∃ e, replaceLogos (.ok dets) (.ok (rw, rh)) (.ok doc) orc =
      ⟨.serverError e, true, false⟩) ∧
    (∀ idx, processOne doc rw rh orc idx det =
      .error ("page " ++ toString (det.page - 1) ++ " not in document")) := by
  have herr : ∀ idx, processOne doc rw rh orc idx det =
      .error ("page " ++ toString (det.page - 1) ++ " not in document") :=
    fun idx => processOne_pageError doc rw rh orc idx det hpage
  refine ⟨?_, herr⟩
  obtain ⟨e, he⟩ :=
    processAll_error_of_mem doc rw rh orc det (fun idx => ⟨_, herr idx⟩) dets hmem 0
  exact ⟨e, by simp only [replaceLogos, he]⟩

/-- Witness for C5 (amended): the spec's own scenario, `page = 99` against a
one-page document. -/
theorem claim_C5_witness :
    (∃ e, replaceLogos (.ok [⟨99, 0, 0, none, none⟩]) (.ok (1, 1)) (.ok [⟨100, []⟩]) orcNone =
      ⟨.serverError e, true, false⟩) ∧
    (∀ idx, processOne [⟨100, []⟩] 1 1 orcNone idx ⟨99, 0, 0, none, none⟩ =
      .error ("page " ++ toString ((99 : Int) - 1) ++ " not in document")) :=
  claim_C5 [⟨99, 0, 0, none, none⟩] [⟨100, []⟩] 1 1 orcNone ⟨99, 0, 0, none, none⟩
    (List.mem_singleton.mpr rfl) (by decide)

/-- C6: whenever `json.loads` fails on the detections form field with parser
message `e`, the handler answers with status 400 and detail
`"Invalid detections JSON: " ++ e`, regardless of every other input — no other
status is possible on that path. -/
theorem claim_C6 (e : String) (decodeLogo : Except String (ℚ × ℚ))
    (openDoc : Except String (List Page)) (orc : Oracles) :
    replaceLogos (.error e) decodeLogo openDoc orc =
      ⟨.clientError ("Invalid detections JSON: " ++ e), false, false⟩ ∧
    (replaceLogos (.error e) decodeLogo openDoc orc).resp.status = 400 :=
  ⟨rfl, rfl⟩

/-- C7: if the detection loop fails on any detection (after the per-detection
fallback is exhausted), the whole request fails with a 500 response carrying
that error, and no PDF bytes are returned — even though earlier detections
may already have been composited into the discarded in-memory document. -/
theorem claim_C7 (dets : List Detection) (doc : List Page) (rw rh : ℚ) (orc : Oracles)
    (e : String) (hfail : processAll doc rw rh orc 0 dets = .error e) :
    replaceLogos (.ok dets) (.ok (rw, rh)) (.ok doc) orc = ⟨.serverError e, true, false⟩ ∧
    (replaceLogos (.ok dets) (.ok (rw, rh)) (.ok doc) orc).resp.isSuccess = false := by
  have h : replaceLogos (.ok dets) (.ok (rw, rh)) (.ok doc) orc =
      ⟨.serverError e, true, false⟩ := by
    simp only [replaceLogos, hfail]
  exact ⟨h, by rw [h]; rfl⟩

/-- Witness for C7: a second detection referencing a missing page aborts the
request even though the first detection was composited. -/
theorem claim_C7_witness :
    replaceLogos (.ok [⟨1, 0, 0, none, none⟩, ⟨2, 0, 0, none, none⟩]) (.ok (1, 1))
        (.ok [⟨100, []⟩]) orcNone =
      ⟨.serverError "page 1 not in document", true, false⟩ ∧
    (replaceLogos (.ok [⟨1, 0, 0, none, none⟩, ⟨2, 0, 0, none, none⟩]) (.ok (1, 1))
        (.ok [⟨100, []⟩]) orcNone).resp.isSuccess = false :=
  claim_C7 [⟨1, 0, 0, none, none⟩, ⟨2, 0, 0, none, none⟩] [⟨100, []⟩] 1 1 orcNone
    "page 1 not in document"
    (by
      norm_num [processAll, processOne, getPage, detectionRect, computeSize, pydiv, pyabs,
        placementRect, compositeStep, innerResult, fallbackResult, findReplace, findReplaceFrom,
        orcNone, Option.getD]
      rfl)

/-- C8 as stated is false: on the error exit path taken when a detection
references a missing page, the handler returns (raises its `HTTPException`)
with the in-memory document opened but never closed — `doc.close()` (line 176)
sits on the success path only, with no `finally`. -/
theorem claim_C8_counterexample :
    (replaceLogos (.ok [⟨3, 1, 1, none, none⟩]) (.ok (2, 1)) (.ok [⟨50, []⟩, ⟨60, []⟩])
        orcNone).docOpened = true ∧
    (replaceLogos (.ok [⟨3, 1, 1, none, none⟩]) (.ok (2, 1)) (.ok [⟨50, []⟩, ⟨60, []⟩])
        orcNone).docClosed = false :=
  ⟨rfl, rfl⟩

/-- C8 amended: the document handle is closed before the response only on the
success path — a successful (200) run has opened and closed the document,
while on every failing exit path the handler returns without closing it. -/
theorem claim_C8 (parse : Except String (List Detection)) (decodeLogo : Except String (ℚ × ℚ))
    (openDoc : Except String (List Page)) (orc : Oracles) :
    ((replaceLogos parse decodeLogo openDoc orc).resp.isSuccess = true →
      (replaceLogos parse decodeLogo openDoc orc).docOpened = true ∧
      (replaceLogos parse decodeLogo openDoc orc).docClosed = true) ∧
    ((replaceLogos parse decodeLogo openDoc orc).resp.isSuccess = false →
      (replaceLogos parse decodeLogo openDoc orc).docClosed = false) := by
  cases parse with
  | error e => simp [replaceLogos, HResp.isSuccess]
  | ok dets =>
    cases decodeLogo with
    | error e => simp [replaceLogos, HResp.isSuccess]
    | ok p =>
      obtain ⟨rw, rh⟩ := p
      cases openDoc with
      | error e => simp [replaceLogos, HResp.isSuccess]
      | ok doc =>
        cases hp : processAll doc rw rh orc 0 dets with
        | error e => simp [replaceLogos, hp, HResp.isSuccess]
        | ok acts => simp [replaceLogos, hp, HResp.isSuccess]

/-- Witness for C8 (amended) on a successful empty-detection run. -/
theorem claim_C8_witness :
    (replaceLogos (.ok []) (.ok (1, 1)) (.ok ([] : List Page)) orcNone).docOpened = true ∧
    (replaceLogos (.ok []) (.ok (1, 1)) (.ok ([] : List Page)) orcNone).docClosed = true :=
  (claim_C8 (.ok []) (.ok (1, 1)) (.ok []) orcNone).1 rfl

/-- When no page image intersects the target rectangle, the loop of lines
127-153 falls through to the insertion branch, whatever the starting
enumeration index. -/
theorem findReplaceFrom_insert (rect : Rect) (images : List Rect)
    (h : ∀ b ∈ images, b.intersects rect = false) :
    ∀ k, findReplaceFrom rect images k = .insertImage rect := by
  induction images with
  | nil => intro k; rfl
  | cons b rest ih =>
    intro k
    have hb := h b (List.mem_cons_self b rest)
    simp only [findReplaceFrom, hb, Bool.false_eq_true, if_false]
    exact ih (fun c hc => h c (List.mem_cons_of_mem _ hc)) (k + 1)

/-- When some page image intersects the target rectangle, the loop of lines
127-153 stops at the first such image: the result is `replaceImage` at offset
`k + i`, where `i` is the least intersecting position. -/
theorem findReplaceFrom_replace (rect : Rect) (images : List Rect)
    (h : ∃ b ∈ images, b.intersects rect = true) :
    ∀ k, ∃ i, ∃ hi : i < images.length,
      (images.get ⟨i, hi⟩).intersects rect = true ∧
      (∀ j (hj : j < images.length), j < i → (images.get ⟨j, hj⟩).intersects rect = false) ∧
      findReplaceFrom rect images k = .replaceImage (k + i) := by
  induction images with
  | nil => simp at h
  | cons b rest ih =>
    intro k
    by_cases hb : b.intersects rect = true
    · refine ⟨0, by simp, by simpa using hb, ?_, ?_⟩
      · intro j hj hlt
        exact absurd hlt (Nat.not_lt_zero j)
      · simp only [findReplaceFrom, hb, if_true, Nat.add_zero]
    · have hb' : b.intersects rect = false := by
        simpa using hb
      have h' : ∃ c ∈ rest, c.intersects rect = true := by
        rcases h with ⟨c, hc, hci⟩
        rcases List.mem_cons.mp hc with heq | hc'
        · exact absurd (heq ▸ hci) hb
        · exact ⟨c, hc', hci⟩
      obtain ⟨i, hi, hint, hfirst, heq⟩ := ih h' (k + 1)
      refine ⟨i + 1, by simpa using Nat.succ_lt_succ hi, by simpa using hint, ?_, ?_⟩
      · intro j hj hlt
        cases j with
        | zero => simpa using hb'
        | succ j' =>
          have hj'' : j' < i := Nat.lt_of_succ_lt_succ hlt
          have hj' : j' < rest.length := Nat.lt_of_succ_lt_succ hj
          simpa using hfirst j' hj' hj''
      · have harith : k + 1 + i = k + (i + 1) := by omega
        simp only [findReplaceFrom, hb', Bool.false_eq_true, if_false, heq, harith]

/-- C9: for every detection, when some image embedded on the target page has a
bounding box intersecting the computed rectangle, the handler replaces the
bytes of the first such image in enumeration order (the rectangle only picks
the image, no overlay is inserted and no rectangle is passed to
`replace_image`); only when no embedded image intersects the rectangle does it
insert the replacement image as an overlay into the rectangle. -/
theorem claim_C9 (images : List Rect) (rect : Rect) :
    ((∃ b ∈ images, b.intersects rect = true) →
      ∃ i, ∃ hi : i < images.length,
        (images.get ⟨i, hi⟩).intersects rect = true ∧
        (∀ j (hj : j < images.length), j < i → (images.get ⟨j, hj⟩).intersects rect = false) ∧
        findReplace images rect = .replaceImage i) ∧
    ((∀ b ∈ images, b.intersects rect = false) →
      findReplace images rect = .insertImage rect) := by
  constructor
  · intro h
    obtain ⟨i, hi, h1, h2, h3⟩ := findReplaceFrom_replace rect images h 0
    exact ⟨i, hi, h1, h2, by simpa [findReplace] using h3⟩
  · intro h
    exact findReplaceFrom_insert rect images h 0

/-- Witness for C9: with two page images of which the first intersects the
rectangle, the first is replaced; with no page images, the logo is inserted. -/
theorem claim_C9_witness :
    (∃ i, ∃ hi : i < ([⟨0, 0, 1, 1⟩, ⟨4, 4, 5, 5⟩] : List Rect).length,
      (([⟨0, 0, 1, 1⟩, ⟨4, 4, 5, 5⟩] : List Rect).get ⟨i, hi⟩).intersects ⟨0, 0, 2, 2⟩ = true ∧
      (∀ j (hj : j < ([⟨0, 0, 1, 1⟩, ⟨4, 4, 5, 5⟩] : List Rect).length), j < i →
        (([⟨0, 0, 1, 1⟩, ⟨4, 4, 5, 5⟩] : List Rect).get ⟨j, hj⟩).intersects ⟨0, 0, 2, 2⟩ =
          false) ∧
      findReplace [⟨0, 0, 1, 1⟩, ⟨4, 4, 5, 5⟩] ⟨0, 0, 2, 2⟩ = .replaceImage i) ∧
    findReplace [] ⟨0, 0, 2, 2⟩ = .insertImage ⟨0, 0, 2, 2⟩ :=
  ⟨(claim_C9 [⟨0, 0, 1, 1⟩, ⟨4, 4, 5, 5⟩] ⟨0, 0, 2, 2⟩).1
      ⟨⟨0, 0, 1, 1⟩, List.mem_cons_self _ _, by decide⟩,
    (claim_C9 [] ⟨0, 0, 2, 2⟩).2 (by simp)⟩

/-- C10: for every detection, when the find-and-replace block raises, the
request does not fail at that point: the handler falls back to inserting the
replacement image into the computed rectangle, and the detection succeeds
exactly when that insertion succeeds; its error (leading to the 500 response)
is precisely the fallback insertion's exception. -/
theorem claim_C10 (doc : List Page) (rw rh : ℚ) (orc : Oracles) (idx : Nat) (det : Detection)
    (page : Page) (rect : Rect) (e : String)
    (hpage : getPage doc (det.page - 1) = .ok page)
    (hrect : detectionRect page rw rh det = .ok rect)
    (hraise : orc.innerRaises idx = some e) :
    (orc.fallbackRaises idx = none →
      processOne doc rw rh orc idx det = .ok (.insertImage rect)) ∧
    (∀ e2, orc.fallbackRaises idx = some e2 →
      processOne doc rw rh orc idx det = .error e2) := by
  constructor
  · intro hfb
    simp only [processOne, hpage, hrect, compositeStep, innerResult, fallbackResult, hraise, hfb]
  · intro e2 hfb
    simp only [processOne, hpage, hrect, compositeStep, innerResult, fallbackResult, hraise, hfb]

/-- Witness for C10: under the always-raising inner block, the detection still
succeeds via the fallback insertion into the computed rectangle. -/
theorem claim_C10_witness :
    processOne [⟨100, []⟩] 1 1 orcInnerBoom 0 ⟨1, 0, 0, some 4, some 4⟩ =
      .ok (.insertImage ⟨0, 0, 4, 4⟩) :=
  (claim_C10 [⟨100, []⟩] 1 1 orcInnerBoom 0 ⟨1, 0, 0, some 4, some 4⟩ ⟨100, []⟩ ⟨0, 0, 4, 4⟩
    "boom" rfl
    (by norm_num [detectionRect, computeSize, pydiv, pyabs, placementRect, Option.getD])
    rfl).1 rfl

end PdfLogoReplacer
